import Mathlib

/-!
Verification of the review engine of res-peer (`src/review/src/state.rs`).

The engine's persisted views (`MapView`, `RegisterView`) are embedded as
association lists and plain fields of a `ReviewState` record; each engine
method becomes a pure function from the pre-state (plus its arguments) to a
result paired with the post-state.  `u16` counters are embedded as `Nat`
with an explicit `% 65536` at every increment.  The `todo!()` branches of
the source are embedded as an explicit `panic` outcome so that their
unreachability is a provable statement.
-/

namespace ResPeer

/-- Account identifier (`Owner` in the source), embedded as `Nat`. -/
abbrev Owner := Nat

/-- Lookup in an association-list map (embeds `MapView::get`). -/
def mapGet {K V : Type} [DecidableEq K] : List (K × V) → K → Option V
  | [], _ => none
  | (k', v) :: rest, k => if k = k' then some v else mapGet rest k

/-- Removal from an association-list map (embeds `MapView::remove`). -/
def mapRemove {K V : Type} [DecidableEq K] (m : List (K × V)) (k : K) :
    List (K × V) :=
  m.filter (fun p => p.1 ≠ k)

/-- Insertion into an association-list map, overwriting any previous binding
(embeds `MapView::insert`). -/
def mapInsert {K V : Type} [DecidableEq K] (m : List (K × V)) (k : K) (v : V) :
    List (K × V) :=
  (k, v) :: mapRemove m k

/-- Modelled from the spec: the `review` crate's `Reviewer` record type is not
under `src/`; fields follow spec section 3 and the uses in `state.rs`.  The
per-application voter map (`reviewers: HashMap<Owner, _>` in the source, with
an unused value payload) is embedded as the list of its keys. -/
structure Reviewer where
  reviewer : Owner
  resume : Option String
  reviewers : List Owner
  approved : Nat
  rejected : Nat
  deriving DecidableEq, Repr

/-- Modelled from the spec: the `review` crate's `Content` record type is not
under `src/`; `cid` plus the voting fields used by `state.rs` (the further
domain payload plays no role in the engine). -/
structure Content where
  cid : String
  reviewers : List Owner
  approved : Nat
  rejected : Nat
  deriving DecidableEq, Repr

/-- Modelled from the spec: the `review` crate's `Asset` record type is not
under `src/`; the voting fields used by `state.rs` (keyed externally by a
numeric collection id). -/
structure Asset where
  reviewers : List Owner
  approved : Nat
  rejected : Nat
  deriving DecidableEq, Repr

/-- Modelled from the spec: the `review` crate's `InitialState` configuration
(six `u16` thresholds), as read by `Review::initialize`. -/
structure InitialState where
  content_approved_threshold : Nat
  content_rejected_threshold : Nat
  asset_approved_threshold : Nat
  asset_rejected_threshold : Nat
  reviewer_approved_threshold : Nat
  reviewer_rejected_threshold : Nat
  deriving DecidableEq, Repr

/-- The persisted root view `Review` of `state.rs`: three pending-application
maps, the accredited-reviewer map, the reviewer counter and the six threshold
registers (all `u16` registers embedded as `Nat`). -/
structure ReviewState where
  reviewers : List (Owner × Reviewer)
  reviewer_number : Nat
  reviewer_applications : List (Owner × Reviewer)
  content_applications : List (String × Content)
  asset_applications : List (Nat × Asset)
  content_approved_threshold : Nat
  content_rejected_threshold : Nat
  asset_approved_threshold : Nat
  asset_rejected_threshold : Nat
  reviewer_approved_threshold : Nat
  reviewer_rejected_threshold : Nat
  deriving DecidableEq, Repr

/-- `StateError` of `state.rs` (the storage and arithmetic passthrough
variants are kept even though the pure embedding never raises them). -/
inductive StateError where
  | ViewError
  | ArithmeticError
  | InvalidReviewer
  | AlreadyReviewed
  | InvalidContent
  deriving DecidableEq, Repr

/-- Outcome of a vote call: a returned value, a returned error, or the
`todo!()` branch of the source (reaching it would abort the process). -/
inductive VoteResult (α : Type) where
  | ok (a : α)
  | err (e : StateError)
  | panic
  deriving DecidableEq, Repr

/-- Whether a vote outcome is the `todo!()` branch. -/
def isPanic {α : Type} : VoteResult α → Bool
  | .panic => true
  | _ => false

/-- Whether a vote outcome is the arithmetic-overflow error. -/
def isErrArith {α : Type} : VoteResult α → Bool
  | .err .ArithmeticError => true
  | _ => false

/-- The freshly created view: every map empty, every `u16` register at its
default value `0`. -/
def emptyState : ReviewState :=
  { reviewers := []
    reviewer_number := 0
    reviewer_applications := []
    content_applications := []
    asset_applications := []
    content_approved_threshold := 0
    content_rejected_threshold := 0
    asset_approved_threshold := 0
    asset_rejected_threshold := 0
    reviewer_approved_threshold := 0
    reviewer_rejected_threshold := 0 }

/-- `Review::initialize` (`state.rs` lines 29-58).  Note the source sets
`reviewer_rejected_threshold` twice and never sets
`reviewer_approved_threshold`; the embedding reproduces this faithfully. -/
def initState (s : ReviewState) (creator : Owner) (st : InitialState) :
    ReviewState :=
  { s with
    content_approved_threshold := st.content_approved_threshold
    content_rejected_threshold := st.content_rejected_threshold
    asset_approved_threshold := st.asset_approved_threshold
    asset_rejected_threshold := st.asset_rejected_threshold
    reviewer_rejected_threshold := st.reviewer_rejected_threshold
    reviewers := mapInsert s.reviewers creator
      { reviewer := creator
        resume := none
        reviewers := []
        approved := 1
        rejected := 0 }
    reviewer_number := 1 }

/-- `Review::is_reviewer` (`state.rs` lines 60-65). -/
def is_reviewer (s : ReviewState) (owner : Owner) : Bool :=
  (mapGet s.reviewers owner).isSome

/-- `Review::apply_reviewer` (`state.rs` lines 67-90); `some e` is the error
case of the source's `Result`. -/
def apply_reviewer (s : ReviewState) (owner : Owner) (res : String) :
    Option StateError × ReviewState :=
  if is_reviewer s owner then (some .InvalidReviewer, s)
  else
    match mapGet s.reviewer_applications owner with
    | some _ => (some .InvalidReviewer, s)
    | none =>
      (none,
        { s with
          reviewer_applications := mapInsert s.reviewer_applications owner
            { reviewer := owner
              resume := some res
              reviewers := []
              approved := 0
              rejected := 0 } })

/-- `Review::validate_reviewer_review` (`state.rs` lines 115-130); `none`
means the vote is valid. -/
def validate_reviewer_review (s : ReviewState) (reviewer candidate : Owner) :
    Option StateError :=
  if ¬ is_reviewer s reviewer then some .InvalidReviewer
  else
    match mapGet s.reviewer_applications candidate with
    | some r =>
      if r.reviewers.contains reviewer then some .AlreadyReviewed else none
    | none => some .InvalidReviewer

/-- `Review::approve_reviewer` (`state.rs` lines 132-160). -/
def approve_reviewer (s : ReviewState) (owner candidate : Owner) :
    VoteResult Bool × ReviewState :=
  match validate_reviewer_review s owner candidate with
  | some e => (.err e, s)
  | none =>
    match mapGet s.reviewer_applications candidate with
    | none => (.err .InvalidReviewer, s)
    | some r =>
      let r1 : Reviewer := { r with approved := (r.approved + 1) % 65536 }
      let s1 : ReviewState :=
        { s with
          reviewer_applications :=
            mapInsert s.reviewer_applications candidate r1 }
      match mapGet s1.reviewer_applications candidate with
      | none => (.panic, s1)
      | some r2 =>
        if r2.approved ≥ s1.reviewer_approved_threshold ∨
            r2.approved ≥ s1.reviewer_number then
          (.ok true,
            { s1 with
              reviewers := mapInsert s1.reviewers candidate r2
              reviewer_applications :=
                mapRemove s1.reviewer_applications candidate
              reviewer_number := (s1.reviewer_number + 1) % 65536 })
        else (.ok false, s1)

/-- `Review::reject_reviewer` (`state.rs` lines 162-190).  The resolution
branch inserts the candidate into the accredited `reviewers` map, exactly as
the source does. -/
def reject_reviewer (s : ReviewState) (owner candidate : Owner) :
    VoteResult Bool × ReviewState :=
  match validate_reviewer_review s owner candidate with
  | some e => (.err e, s)
  | none =>
    match mapGet s.reviewer_applications candidate with
    | none => (.err .InvalidReviewer, s)
    | some r =>
      let r1 : Reviewer := { r with rejected := (r.rejected + 1) % 65536 }
      let s1 : ReviewState :=
        { s with
          reviewer_applications :=
            mapInsert s.reviewer_applications candidate r1 }
      match mapGet s1.reviewer_applications candidate with
      | none => (.panic, s1)
      | some r2 =>
        if r2.rejected ≥ s1.reviewer_rejected_threshold ∨
            r2.rejected ≥ s1.reviewer_number then
          (.ok true,
            { s1 with
              reviewers := mapInsert s1.reviewers candidate r2
              reviewer_applications :=
                mapRemove s1.reviewer_applications candidate
              reviewer_number := (s1.reviewer_number + 1) % 65536 })
        else (.ok false, s1)

/-- `Review::validate_content_review` (`state.rs` lines 192-207). -/
def validate_content_review (s : ReviewState) (reviewer : Owner)
    (content_cid : String) : Option StateError :=
  if ¬ is_reviewer s reviewer then some .InvalidReviewer
  else
    match mapGet s.content_applications content_cid with
    | some c =>
      if c.reviewers.contains reviewer then some .AlreadyReviewed else none
    | none => some .InvalidContent

/-- `Review::submit_content` (`state.rs` lines 209-213). -/
def submit_content (s : ReviewState) (content : Content) : ReviewState :=
  { s with
    content_applications :=
      mapInsert s.content_applications content.cid content }

/-- `Review::approve_content` (`state.rs` lines 215-240). -/
def approve_content (s : ReviewState) (reviewer : Owner)
    (content_cid : String) : VoteResult (Option Content) × ReviewState :=
  match validate_content_review s reviewer content_cid with
  | some e => (.err e, s)
  | none =>
    match mapGet s.content_applications content_cid with
    | none => (.err .InvalidReviewer, s)
    | some c =>
      let c1 : Content := { c with approved := (c.approved + 1) % 65536 }
      let s1 : ReviewState :=
        { s with
          content_applications :=
            mapInsert s.content_applications content_cid c1 }
      match mapGet s1.content_applications content_cid with
      | none => (.panic, s1)
      | some c2 =>
        if c2.approved ≥ s1.reviewer_approved_threshold ∨
            c2.approved ≥ s1.reviewer_number then
          (.ok (some c2), s1)
        else (.ok none, s1)

/-- `Review::reject_content` (`state.rs` lines 242-267). -/
def reject_content (s : ReviewState) (reviewer : Owner)
    (content_cid : String) : VoteResult Bool × ReviewState :=
  match validate_content_review s reviewer content_cid with
  | some e => (.err e, s)
  | none =>
    match mapGet s.content_applications content_cid with
    | none => (.err .InvalidReviewer, s)
    | some c =>
      let c1 : Content := { c with rejected := (c.rejected + 1) % 65536 }
      let s1 : ReviewState :=
        { s with
          content_applications :=
            mapInsert s.content_applications content_cid c1 }
      match mapGet s1.content_applications content_cid with
      | none => (.panic, s1)
      | some c2 =>
        if c2.rejected ≥ s1.reviewer_rejected_threshold ∨
            c2.rejected ≥ s1.reviewer_number then
          (.ok true, s1)
        else (.ok false, s1)

/-- `Review::validate_asset_review` (`state.rs` lines 269-284).  A missing
asset application is treated as valid (`None => Ok(())` in the source). -/
def validate_asset_review (s : ReviewState) (reviewer : Owner)
    (collection_id : Nat) : Option StateError :=
  if ¬ is_reviewer s reviewer then some .InvalidReviewer
  else
    match mapGet s.asset_applications collection_id with
    | some a =>
      if a.reviewers.contains reviewer then some .AlreadyReviewed else none
    | none => none

/-- `Review::approve_asset` (`state.rs` lines 286-310). -/
def approve_asset (s : ReviewState) (reviewer : Owner)
    (collection_id : Nat) : VoteResult Bool × ReviewState :=
  match validate_asset_review s reviewer collection_id with
  | some e => (.err e, s)
  | none =>
    match mapGet s.asset_applications collection_id with
    | none => (.err .InvalidReviewer, s)
    | some a =>
      let a1 : Asset := { a with approved := (a.approved + 1) % 65536 }
      let s1 : ReviewState :=
        { s with
          asset_applications :=
            mapInsert s.asset_applications collection_id a1 }
      match mapGet s1.asset_applications collection_id with
      | none => (.panic, s1)
      | some a2 =>
        if a2.approved ≥ s1.reviewer_approved_threshold ∨
            a2.approved ≥ s1.reviewer_number then
          (.ok true, s1)
        else (.ok false, s1)

/-- `Review::reject_asset` (`state.rs` lines 312-336). -/
def reject_asset (s : ReviewState) (reviewer : Owner)
    (collection_id : Nat) : VoteResult Bool × ReviewState :=
  match validate_asset_review s reviewer collection_id with
  | some e => (.err e, s)
  | none =>
    match mapGet s.asset_applications collection_id with
    | none => (.err .InvalidReviewer, s)
    | some a =>
      let a1 : Asset := { a with rejected := (a.rejected + 1) % 65536 }
      let s1 : ReviewState :=
        { s with
          asset_applications :=
            mapInsert s.asset_applications collection_id a1 }
      match mapGet s1.asset_applications collection_id with
      | none => (.panic, s1)
      | some a2 =>
        if a2.rejected ≥ s1.reviewer_rejected_threshold ∨
            a2.rejected ≥ s1.reviewer_number then
          (.ok true, s1)
        else (.ok false, s1)

/-! ### Map lemmas -/

theorem mapGet_remove_ne {K V : Type} [DecidableEq K] (m : List (K × V))
    (k k' : K) (h : k' ≠ k) : mapGet (mapRemove m k) k' = mapGet m k' := by
  induction m with
  | nil => rfl
  | cons p rest ih =>
    obtain ⟨pk, pv⟩ := p
    simp only [mapRemove] at ih ⊢
    simp only [ne_eq, decide_not] at ih
    by_cases hpk : pk = k <;> by_cases hkk : k' = pk
    · exact absurd (hkk.trans hpk) h
    · simp [List.filter_cons, hpk, mapGet, hkk, h, ih]
    · simp [List.filter_cons, hpk, mapGet, hkk]
    · simp [List.filter_cons, hpk, mapGet, hkk, ih]

theorem mapGet_insert_self {K V : Type} [DecidableEq K] (m : List (K × V))
    (k : K) (v : V) : mapGet (mapInsert m k v) k = some v := by
  simp [mapInsert, mapGet]

theorem mapGet_insert_ne {K V : Type} [DecidableEq K] (m : List (K × V))
    (k : K) (v : V) (k' : K) (h : k' ≠ k) :
    mapGet (mapInsert m k v) k' = mapGet m k' := by
  simp [mapInsert, mapGet, h]
  exact mapGet_remove_ne m k k' h

/-! ### Concrete states used by counterexamples and witnesses -/

/-- An accredited-reviewer record with the given identity and tallies. -/
def mkReviewer (o : Owner) (a r : Nat) : Reviewer :=
  { reviewer := o, resume := none, reviewers := [], approved := a,
    rejected := r }

/-- A fresh candidate record as created by `apply_reviewer`. -/
def mkCandidate (o : Owner) : Reviewer :=
  { reviewer := o, resume := some "cv", reviewers := [], approved := 0,
    rejected := 0 }

/-- Three accredited reviewers, approval threshold 3, candidate 9 pending. -/
def sC1 : ReviewState :=
  { emptyState with
    reviewers := [(1, mkReviewer 1 1 0), (2, mkReviewer 2 0 0),
      (3, mkReviewer 3 0 0)]
    reviewer_number := 3
    reviewer_approved_threshold := 3
    reviewer_rejected_threshold := 3
    reviewer_applications := [(9, mkCandidate 9)] }

/-- A configuration with six pairwise distinct threshold values. -/
def cfgC4 : InitialState :=
  { content_approved_threshold := 10
    content_rejected_threshold := 11
    asset_approved_threshold := 12
    asset_rejected_threshold := 13
    reviewer_approved_threshold := 5
    reviewer_rejected_threshold := 7 }

/-- Founder alone, both reviewer thresholds 2, candidate 9 pending. -/
def sC3 : ReviewState :=
  { emptyState with
    reviewers := [(1, mkReviewer 1 1 0)]
    reviewer_number := 1
    reviewer_approved_threshold := 2
    reviewer_rejected_threshold := 2
    reviewer_applications := [(9, mkCandidate 9)] }

/-- Founder alone, no pending application of any kind. -/
def sC7 : ReviewState :=
  { emptyState with
    reviewers := [(1, mkReviewer 1 1 0)]
    reviewer_number := 1 }

/-- Founder alone and a content application whose approved tally sits at the
top of the `u16` range. -/
def sC8 : ReviewState :=
  { emptyState with
    reviewers := [(1, mkReviewer 1 1 0)]
    reviewer_number := 1
    reviewer_approved_threshold := 3
    reviewer_rejected_threshold := 3
    content_applications :=
      [("c", { cid := "c", reviewers := [], approved := 65535,
               rejected := 0 })] }

/-! ### Theorems for the claims -/

/-- C1: with three accredited reviewers and approval threshold 3, reviewer 1
votes twice on pending candidate 9: both calls succeed (the second is not
rejected with `AlreadyReviewed`) and the candidate's voter set is still empty
after both calls — the voting functions never insert the caster into the
application's voter map, so the claimed first-vote/second-vote behaviour
fails on the code. -/
theorem reviewer_double_vote_accepted :
    ((approve_reviewer sC1 1 9).1 = .ok false) ∧
    ((approve_reviewer (approve_reviewer sC1 1 9).2 1 9).1 = .ok false) ∧
    ((mapGet (approve_reviewer (approve_reviewer sC1 1 9).2 1
        9).2.reviewer_applications 9).map (fun r => r.reviewers)
      = some ([] : List Owner)) := by decide

/-- C2: the invariant `voters.size = approved + rejected` fails on the code:
after `initialize` the founder record has an empty voter set but tally sum 1,
and after one valid approving vote the candidate record has an empty voter
set but tally sum 1. -/
theorem tally_voter_drift :
    ((mapGet (initState emptyState 1 cfgC4).reviewers 1).map
        (fun r => (r.reviewers.length, r.approved + r.rejected))
      = some (0, 1)) ∧
    ((mapGet (approve_reviewer sC1 1 9).2.reviewer_applications 9).map
        (fun r => (r.reviewers.length, r.approved + r.rejected))
      = some (0, 1)) := by decide

/-- C3: a reject-resolution of reviewer candidate 9 (founder alone, effective
threshold `min 2 1 = 1`) removes the candidate from
`reviewer_applications` but also inserts it into the accredited `reviewers`
map and increments `reviewer_number` — the code accredits the rejected
candidate, contradicting the claim. -/
theorem reject_resolution_accredits_candidate :
    ((reject_reviewer sC3 1 9).1 = .ok true) ∧
    (mapGet (reject_reviewer sC3 1 9).2.reviewer_applications 9 = none) ∧
    ((mapGet (reject_reviewer sC3 1 9).2.reviewers 9).isSome = true) ∧
    ((reject_reviewer sC3 1 9).2.reviewer_number = 2) := by decide

/-- C4: `initialize` does not store the six configured thresholds verbatim:
with `reviewer_approved_threshold = 5` in the configuration, the
reviewer-approved register still holds its default 0 after initialization
(the source sets `reviewer_rejected_threshold` twice instead), while the
other five registers do receive their configured values. -/
theorem init_thresholds_not_verbatim :
    ((initState emptyState 1 cfgC4).reviewer_approved_threshold = 0) ∧
    (cfgC4.reviewer_approved_threshold = 5) ∧
    ((initState emptyState 1 cfgC4).reviewer_rejected_threshold = 7) ∧
    ((initState emptyState 1 cfgC4).content_approved_threshold = 10) ∧
    ((initState emptyState 1 cfgC4).content_rejected_threshold = 11) ∧
    ((initState emptyState 1 cfgC4).asset_approved_threshold = 12) ∧
    ((initState emptyState 1 cfgC4).asset_rejected_threshold = 13) := by
  decide

/-- C7 counterexample: the unknown-target errors are not kind-specific.  With
accredited reviewer 1 and no pending application anywhere, an asset vote on
the missing collection 5 fails with `InvalidReviewer` — the very same error a
reviewer vote on the missing candidate 9 produces, and the same error a
non-accredited caster receives — while asset validation itself even accepts
the missing target.  Only content votes get a distinct error. -/
theorem asset_unknown_target_error_not_specific :
    ((approve_asset sC7 1 5).1 = .err .InvalidReviewer) ∧
    ((approve_reviewer sC7 1 9).1 = .err .InvalidReviewer) ∧
    ((approve_content sC7 1 "c").1 = .err .InvalidContent) ∧
    ((approve_asset emptyState 2 5).1 = .err .InvalidReviewer) ∧
    (validate_asset_review sC7 1 5 = none) := by decide

/-- C8 counterexample: a content approval whose tally sits at 65535 does not
fail with an arithmetic-overflow error; the call succeeds (still pending) and
the stored tally wraps around to 0. -/
theorem tally_overflow_wraps_no_error :
    ((approve_content sC8 1 "c").1 = .ok none) ∧
    ((mapGet (approve_content sC8 1 "c").2.content_applications "c").map
        Content.approved = some 0) := by decide

theorem approve_reviewer_no_panic (s : ReviewState) (o cand : Owner) :
    isPanic (approve_reviewer s o cand).1 = false := by
  unfold approve_reviewer
  split
  · rfl
  · split
    · rfl
    · dsimp only
      split
      · next heq => rw [mapGet_insert_self] at heq; exact absurd heq (by simp)
      · split <;> rfl

theorem reject_reviewer_no_panic (s : ReviewState) (o cand : Owner) :
    isPanic (reject_reviewer s o cand).1 = false := by
  unfold reject_reviewer
  split
  · rfl
  · split
    · rfl
    · dsimp only
      split
      · next heq => rw [mapGet_insert_self] at heq; exact absurd heq (by simp)
      · split <;> rfl

theorem approve_content_no_panic (s : ReviewState) (o : Owner)
    (cid : String) : isPanic (approve_content s o cid).1 = false := by
  unfold approve_content
  split
  · rfl
  · split
    · rfl
    · dsimp only
      split
      · next heq => rw [mapGet_insert_self] at heq; exact absurd heq (by simp)
      · split <;> rfl

theorem reject_content_no_panic (s : ReviewState) (o : Owner)
    (cid : String) : isPanic (reject_content s o cid).1 = false := by
  unfold reject_content
  split
  · rfl
  · split
    · rfl
    · dsimp only
      split
      · next heq => rw [mapGet_insert_self] at heq; exact absurd heq (by simp)
      · split <;> rfl

theorem approve_asset_no_panic (s : ReviewState) (o : Owner) (aid : Nat) :
    isPanic (approve_asset s o aid).1 = false := by
  unfold approve_asset
  split
  · rfl
  · split
    · rfl
    · dsimp only
      split
      · next heq => rw [mapGet_insert_self] at heq; exact absurd heq (by simp)
      · split <;> rfl

theorem reject_asset_no_panic (s : ReviewState) (o : Owner) (aid : Nat) :
    isPanic (reject_asset s o aid).1 = false := by
  unfold reject_asset
  split
  · rfl
  · split
    · rfl
    · dsimp only
      split
      · next heq => rw [mapGet_insert_self] at heq; exact absurd heq (by simp)
      · split <;> rfl

/-- C10: in every approve/reject vote function, the re-read of the target
application performed right after inserting the incremented record always
finds it, so the `todo!()` branch is unreachable: no vote call, on any state
and any arguments, produces the `panic` outcome. -/
theorem todo_branch_unreachable (s : ReviewState) (o cand : Owner)
    (cid : String) (aid : Nat) :
    isPanic (approve_reviewer s o cand).1 = false ∧
    isPanic (reject_reviewer s o cand).1 = false ∧
    isPanic (approve_content s o cid).1 = false ∧
    isPanic (reject_content s o cid).1 = false ∧
    isPanic (approve_asset s o aid).1 = false ∧
    isPanic (reject_asset s o aid).1 = false :=
  ⟨approve_reviewer_no_panic s o cand, reject_reviewer_no_panic s o cand,
    approve_content_no_panic s o cid, reject_content_no_panic s o cid,
    approve_asset_no_panic s o aid, reject_asset_no_panic s o aid⟩

theorem approve_reviewer_err_frame (s : ReviewState) (o cand : Owner)
    (e : StateError) (s' : ReviewState)
    (h : approve_reviewer s o cand = (.err e, s')) : s' = s := by
  unfold approve_reviewer at h
  split at h
  · simp only [Prod.mk.injEq] at h; exact h.2.symm
  · split at h
    · simp only [Prod.mk.injEq] at h; exact h.2.symm
    · dsimp only at h
      split at h
      · simp at h
      · split at h <;> simp at h

theorem reject_reviewer_err_frame (s : ReviewState) (o cand : Owner)
    (e : StateError) (s' : ReviewState)
    (h : reject_reviewer s o cand = (.err e, s')) : s' = s := by
  unfold reject_reviewer at h
  split at h
  · simp only [Prod.mk.injEq] at h; exact h.2.symm
  · split at h
    · simp only [Prod.mk.injEq] at h; exact h.2.symm
    · dsimp only at h
      split at h
      · simp at h
      · split at h <;> simp at h

theorem approve_content_err_frame (s : ReviewState) (o : Owner)
    (cid : String) (e : StateError) (s' : ReviewState)
    (h : approve_content s o cid = (.err e, s')) : s' = s := by
  unfold approve_content at h
  split at h
  · simp only [Prod.mk.injEq] at h; exact h.2.symm
  · split at h
    · simp only [Prod.mk.injEq] at h; exact h.2.symm
    · dsimp only at h
      split at h
      · simp at h
      · split at h <;> simp at h

theorem reject_content_err_frame (s : ReviewState) (o : Owner)
    (cid : String) (e : StateError) (s' : ReviewState)
    (h : reject_content s o cid = (.err e, s')) : s' = s := by
  unfold reject_content at h
  split at h
  · simp only [Prod.mk.injEq] at h; exact h.2.symm
  · split at h
    · simp only [Prod.mk.injEq] at h; exact h.2.symm
    · dsimp only at h
      split at h
      · simp at h
      · split at h <;> simp at h

theorem approve_asset_err_frame (s : ReviewState) (o : Owner) (aid : Nat)
    (e : StateError) (s' : ReviewState)
    (h : approve_asset s o aid = (.err e, s')) : s' = s := by
  unfold approve_asset at h
  split at h
  · simp only [Prod.mk.injEq] at h; exact h.2.symm
  · split at h
    · simp only [Prod.mk.injEq] at h; exact h.2.symm
    · dsimp only at h
      split at h
      · simp at h
      · split at h <;> simp at h

theorem reject_asset_err_frame (s : ReviewState) (o : Owner) (aid : Nat)
    (e : StateError) (s' : ReviewState)
    (h : reject_asset s o aid = (.err e, s')) : s' = s := by
  unfold reject_asset at h
  split at h
  · simp only [Prod.mk.injEq] at h; exact h.2.symm
  · split at h
    · simp only [Prod.mk.injEq] at h; exact h.2.symm
    · dsimp only at h
      split at h
      · simp at h
      · split at h <;> simp at h

/-- C6: every vote call that returns an error leaves the whole engine state
exactly as it was: if the returned outcome is `err e`, the returned state is
the pre-state, for all six vote functions. -/
theorem vote_error_leaves_state_unchanged (s : ReviewState) (o cand : Owner)
    (cid : String) (aid : Nat) (e : StateError) :
    ((approve_reviewer s o cand).1 = .err e →
      approve_reviewer s o cand = (.err e, s)) ∧
    ((reject_reviewer s o cand).1 = .err e →
      reject_reviewer s o cand = (.err e, s)) ∧
    ((approve_content s o cid).1 = .err e →
      approve_content s o cid = (.err e, s)) ∧
    ((reject_content s o cid).1 = .err e →
      reject_content s o cid = (.err e, s)) ∧
    ((approve_asset s o aid).1 = .err e →
      approve_asset s o aid = (.err e, s)) ∧
    ((reject_asset s o aid).1 = .err e →
      reject_asset s o aid = (.err e, s)) := by
  refine ⟨fun h => ?_, fun h => ?_, fun h => ?_, fun h => ?_, fun h => ?_,
    fun h => ?_⟩
  · have hp : approve_reviewer s o cand =
        (.err e, (approve_reviewer s o cand).2) := by rw [← h]
    rw [hp, approve_reviewer_err_frame s o cand e _ hp]
  · have hp : reject_reviewer s o cand =
        (.err e, (reject_reviewer s o cand).2) := by rw [← h]
    rw [hp, reject_reviewer_err_frame s o cand e _ hp]
  · have hp : approve_content s o cid =
        (.err e, (approve_content s o cid).2) := by rw [← h]
    rw [hp, approve_content_err_frame s o cid e _ hp]
  · have hp : reject_content s o cid =
        (.err e, (reject_content s o cid).2) := by rw [← h]
    rw [hp, reject_content_err_frame s o cid e _ hp]
  · have hp : approve_asset s o aid =
        (.err e, (approve_asset s o aid).2) := by rw [← h]
    rw [hp, approve_asset_err_frame s o aid e _ hp]
  · have hp : reject_asset s o aid =
        (.err e, (reject_asset s o aid).2) := by rw [← h]
    rw [hp, reject_asset_err_frame s o aid e _ hp]

/-- C6 witness: a non-accredited caster's reviewer vote on `sC7` fails with
`InvalidReviewer` and returns `sC7` unchanged. -/
theorem vote_error_leaves_state_unchanged_witness :
    approve_reviewer sC7 2 9 = (.err .InvalidReviewer, sC7) :=
  (vote_error_leaves_state_unchanged sC7 2 9 "c" 5 .InvalidReviewer).1
    (by decide)

theorem approve_reviewer_resolution (s : ReviewState) (o cand : Owner)
    (r : Reviewer) (hg : mapGet s.reviewer_applications cand = some r)
    (b : Bool) (h : (approve_reviewer s o cand).1 = .ok b) :
    (b = true ↔
      min s.reviewer_approved_threshold s.reviewer_number ≤
        (r.approved + 1) % 65536) := by
  unfold approve_reviewer at h
  split at h
  · simp at h
  · split at h
    · next heq => rw [hg] at heq; exact absurd heq (by simp)
    · next r' heq =>
      rw [hg] at heq
      injection heq with hr
      subst hr
      dsimp only at h
      split at h
      · next heq2 => rw [mapGet_insert_self] at heq2; exact absurd heq2 (by simp)
      · next r2 heq2 =>
        rw [mapGet_insert_self] at heq2
        injection heq2 with hr2
        subst hr2
        split at h
        · next hc =>
          simp only [Prod.fst] at h
          obtain rfl : b = true := by
            injection h with hb; exact hb.symm
          simp only [true_iff]
          exact min_le_iff.mpr (by simpa [ge_iff_le] using hc)
        · next hc =>
          simp only [Prod.fst] at h
          obtain rfl : b = false := by
            injection h with hb; exact hb.symm
          simp only [Bool.false_eq_true, false_iff]
          intro hmin
          exact hc (by simpa [ge_iff_le, min_le_iff] using hmin)

theorem reject_reviewer_resolution (s : ReviewState) (o cand : Owner)
    (r : Reviewer) (hg : mapGet s.reviewer_applications cand = some r)
    (b : Bool) (h : (reject_reviewer s o cand).1 = .ok b) :
    (b = true ↔
      min s.reviewer_rejected_threshold s.reviewer_number ≤
        (r.rejected + 1) % 65536) := by
  unfold reject_reviewer at h
  split at h
  · simp at h
  · split at h
    · next heq => rw [hg] at heq; exact absurd heq (by simp)
    · next r' heq =>
      rw [hg] at heq
      injection heq with hr
      subst hr
      dsimp only at h
      split at h
      · next heq2 => rw [mapGet_insert_self] at heq2; exact absurd heq2 (by simp)
      · next r2 heq2 =>
        rw [mapGet_insert_self] at heq2
        injection heq2 with hr2
        subst hr2
        split at h
        · next hc =>
          simp only [Prod.fst] at h
          obtain rfl : b = true := by
            injection h with hb; exact hb.symm
          simp only [true_iff]
          exact min_le_iff.mpr (by simpa [ge_iff_le] using hc)
        · next hc =>
          simp only [Prod.fst] at h
          obtain rfl : b = false := by
            injection h with hb; exact hb.symm
          simp only [Bool.false_eq_true, false_iff]
          intro hmin
          exact hc (by simpa [ge_iff_le, min_le_iff] using hmin)

theorem approve_content_resolution (s : ReviewState) (o : Owner)
    (cid : String) (c : Content)
    (hg : mapGet s.content_applications cid = some c)
    (ores : Option Content) (h : (approve_content s o cid).1 = .ok ores) :
    (ores.isSome = true ↔
      min s.reviewer_approved_threshold s.reviewer_number ≤
        (c.approved + 1) % 65536) := by
  unfold approve_content at h
  split at h
  · simp at h
  · split at h
    · next heq => rw [hg] at heq; exact absurd heq (by simp)
    · next c' heq =>
      rw [hg] at heq
      injection heq with hc'
      subst hc'
      dsimp only at h
      split at h
      · next heq2 => rw [mapGet_insert_self] at heq2; exact absurd heq2 (by simp)
      · next c2 heq2 =>
        rw [mapGet_insert_self] at heq2
        injection heq2 with hc2
        subst hc2
        split at h
        · next hcnd =>
          simp only [Prod.fst] at h
          obtain rfl : ores = some _ := by
            injection h with hb; exact hb.symm
          simp only [Option.isSome_some, true_iff]
          exact min_le_iff.mpr (by simpa [ge_iff_le] using hcnd)
        · next hcnd =>
          simp only [Prod.fst] at h
          obtain rfl : ores = none := by
            injection h with hb; exact hb.symm
          simp only [Option.isSome_none, Bool.false_eq_true, false_iff]
          intro hmin
          exact hcnd (by simpa [ge_iff_le, min_le_iff] using hmin)

theorem reject_content_resolution (s : ReviewState) (o : Owner)
    (cid : String) (c : Content)
    (hg : mapGet s.content_applications cid = some c)
    (b : Bool) (h : (reject_content s o cid).1 = .ok b) :
    (b = true ↔
      min s.reviewer_rejected_threshold s.reviewer_number ≤
        (c.rejected + 1) % 65536) := by
  unfold reject_content at h
  split at h
  · simp at h
  · split at h
    · next heq => rw [hg] at heq; exact absurd heq (by simp)
    · next c' heq =>
      rw [hg] at heq
      injection heq with hc'
      subst hc'
      dsimp only at h
      split at h
      · next heq2 => rw [mapGet_insert_self] at heq2; exact absurd heq2 (by simp)
      · next c2 heq2 =>
        rw [mapGet_insert_self] at heq2
        injection heq2 with hc2
        subst hc2
        split at h
        · next hc =>
          simp only [Prod.fst] at h
          obtain rfl : b = true := by
            injection h with hb; exact hb.symm
          simp only [true_iff]
          exact min_le_iff.mpr (by simpa [ge_iff_le] using hc)
        · next hc =>
          simp only [Prod.fst] at h
          obtain rfl : b = false := by
            injection h with hb; exact hb.symm
          simp only [Bool.false_eq_true, false_iff]
          intro hmin
          exact hc (by simpa [ge_iff_le, min_le_iff] using hmin)

theorem approve_asset_resolution (s : ReviewState) (o : Owner) (aid : Nat)
    (a : Asset) (hg : mapGet s.asset_applications aid = some a)
    (b : Bool) (h : (approve_asset s o aid).1 = .ok b) :
    (b = true ↔
      min s.reviewer_approved_threshold s.reviewer_number ≤
        (a.approved + 1) % 65536) := by
  unfold approve_asset at h
  split at h
  · simp at h
  · split at h
    · next heq => rw [hg] at heq; exact absurd heq (by simp)
    · next a' heq =>
      rw [hg] at heq
      injection heq with ha'
      subst ha'
      dsimp only at h
      split at h
      · next heq2 => rw [mapGet_insert_self] at heq2; exact absurd heq2 (by simp)
      · next a2 heq2 =>
        rw [mapGet_insert_self] at heq2
        injection heq2 with ha2
        subst ha2
        split at h
        · next hc =>
          simp only [Prod.fst] at h
          obtain rfl : b = true := by
            injection h with hb; exact hb.symm
          simp only [true_iff]
          exact min_le_iff.mpr (by simpa [ge_iff_le] using hc)
        · next hc =>
          simp only [Prod.fst] at h
          obtain rfl : b = false := by
            injection h with hb; exact hb.symm
          simp only [Bool.false_eq_true, false_iff]
          intro hmin
          exact hc (by simpa [ge_iff_le, min_le_iff] using hmin)

theorem reject_asset_resolution (s : ReviewState) (o : Owner) (aid : Nat)
    (a : Asset) (hg : mapGet s.asset_applications aid = some a)
    (b : Bool) (h : (reject_asset s o aid).1 = .ok b) :
    (b = true ↔
      min s.reviewer_rejected_threshold s.reviewer_number ≤
        (a.rejected + 1) % 65536) := by
  unfold reject_asset at h
  split at h
  · simp at h
  · split at h
    · next heq => rw [hg] at heq; exact absurd heq (by simp)
    · next a' heq =>
      rw [hg] at heq
      injection heq with ha'
      subst ha'
      dsimp only at h
      split at h
      · next heq2 => rw [mapGet_insert_self] at heq2; exact absurd heq2 (by simp)
      · next a2 heq2 =>
        rw [mapGet_insert_self] at heq2
        injection heq2 with ha2
        subst ha2
        split at h
        · next hc =>
          simp only [Prod.fst] at h
          obtain rfl : b = true := by
            injection h with hb; exact hb.symm
          simp only [true_iff]
          exact min_le_iff.mpr (by simpa [ge_iff_le] using hc)
        · next hc =>
          simp only [Prod.fst] at h
          obtain rfl : b = false := by
            injection h with hb; exact hb.symm
          simp only [Bool.false_eq_true, false_iff]
          intro hmin
          exact hc (by simpa [ge_iff_le, min_le_iff] using hmin)

/-- C5: a valid vote (one that returns `ok`) reports a resolution exactly
when the post-increment tally for the voted direction reaches
`min (configured reviewer threshold for that direction) reviewer_number`,
and this uses the reviewer approve/reject thresholds for all three entity
kinds — the content and asset threshold registers are never consulted. -/
theorem vote_resolution_iff_min_threshold (s : ReviewState) (o cand : Owner)
    (cid : String) (aid : Nat) :
    (∀ r b, mapGet s.reviewer_applications cand = some r →
      (approve_reviewer s o cand).1 = .ok b →
      (b = true ↔ min s.reviewer_approved_threshold s.reviewer_number ≤
        (r.approved + 1) % 65536)) ∧
    (∀ r b, mapGet s.reviewer_applications cand = some r →
      (reject_reviewer s o cand).1 = .ok b →
      (b = true ↔ min s.reviewer_rejected_threshold s.reviewer_number ≤
        (r.rejected + 1) % 65536)) ∧
    (∀ c ores, mapGet s.content_applications cid = some c →
      (approve_content s o cid).1 = .ok ores →
      (ores.isSome = true ↔
        min s.reviewer_approved_threshold s.reviewer_number ≤
          (c.approved + 1) % 65536)) ∧
    (∀ c b, mapGet s.content_applications cid = some c →
      (reject_content s o cid).1 = .ok b →
      (b = true ↔ min s.reviewer_rejected_threshold s.reviewer_number ≤
        (c.rejected + 1) % 65536)) ∧
    (∀ a b, mapGet s.asset_applications aid = some a →
      (approve_asset s o aid).1 = .ok b →
      (b = true ↔ min s.reviewer_approved_threshold s.reviewer_number ≤
        (a.approved + 1) % 65536)) ∧
    (∀ a b, mapGet s.asset_applications aid = some a →
      (reject_asset s o aid).1 = .ok b →
      (b = true ↔ min s.reviewer_rejected_threshold s.reviewer_number ≤
        (a.rejected + 1) % 65536)) :=
  ⟨fun r b hg h => approve_reviewer_resolution s o cand r hg b h,
    fun r b hg h => reject_reviewer_resolution s o cand r hg b h,
    fun c ores hg h => approve_content_resolution s o cid c hg ores h,
    fun c b hg h => reject_content_resolution s o cid c hg b h,
    fun a b hg h => approve_asset_resolution s o aid a hg b h,
    fun a b hg h => reject_asset_resolution s o aid a hg b h⟩

/-- C5 witness: on `sC3` (founder alone, approval threshold 2) the founder's
approving vote on candidate 9 resolves, matching
`min 2 1 = 1 ≤ 1` for the post-increment tally. -/
theorem vote_resolution_iff_min_threshold_witness :
    (true = true ↔ min 2 1 ≤ (0 + 1) % 65536) :=
  (vote_resolution_iff_min_threshold sC3 1 9 "c" 5).1 (mkCandidate 9) true
    (by decide) (by decide)

/-- All components of the state other than the content-application table are
equal in `s` and `s'`. -/
def frameSansContent (s s' : ReviewState) : Prop :=
  s'.reviewers = s.reviewers ∧
  s'.reviewer_number = s.reviewer_number ∧
  s'.reviewer_applications = s.reviewer_applications ∧
  s'.asset_applications = s.asset_applications ∧
  s'.content_approved_threshold = s.content_approved_threshold ∧
  s'.content_rejected_threshold = s.content_rejected_threshold ∧
  s'.asset_approved_threshold = s.asset_approved_threshold ∧
  s'.asset_rejected_threshold = s.asset_rejected_threshold ∧
  s'.reviewer_approved_threshold = s.reviewer_approved_threshold ∧
  s'.reviewer_rejected_threshold = s.reviewer_rejected_threshold

/-- All components of the state other than the asset-application table are
equal in `s` and `s'`. -/
def frameSansAsset (s s' : ReviewState) : Prop :=
  s'.reviewers = s.reviewers ∧
  s'.reviewer_number = s.reviewer_number ∧
  s'.reviewer_applications = s.reviewer_applications ∧
  s'.content_applications = s.content_applications ∧
  s'.content_approved_threshold = s.content_approved_threshold ∧
  s'.content_rejected_threshold = s.content_rejected_threshold ∧
  s'.asset_approved_threshold = s.asset_approved_threshold ∧
  s'.asset_rejected_threshold = s.asset_rejected_threshold ∧
  s'.reviewer_approved_threshold = s.reviewer_approved_threshold ∧
  s'.reviewer_rejected_threshold = s.reviewer_rejected_threshold

theorem approve_content_ok_frame (s : ReviewState) (o : Owner) (cid : String)
    (ores : Option Content) (s' : ReviewState)
    (h : approve_content s o cid = (.ok ores, s')) :
    frameSansContent s s' ∧
    (mapGet s'.content_applications cid).isSome = true ∧
    (∀ k, k ≠ cid →
      mapGet s'.content_applications k = mapGet s.content_applications k) := by
  unfold approve_content at h
  split at h
  · simp at h
  · split at h
    · simp at h
    · dsimp only at h
      split at h
      · simp at h
      · split at h <;>
        · injection h with hres hstate
          subst hstate
          refine ⟨⟨rfl, rfl, rfl, rfl, rfl, rfl, rfl, rfl, rfl, rfl⟩, ?_, ?_⟩
          · simp [mapGet_insert_self]
          · intro k hk; exact mapGet_insert_ne _ _ _ _ hk

theorem reject_content_ok_frame (s : ReviewState) (o : Owner) (cid : String)
    (b : Bool) (s' : ReviewState)
    (h : reject_content s o cid = (.ok b, s')) :
    frameSansContent s s' ∧
    (mapGet s'.content_applications cid).isSome = true ∧
    (∀ k, k ≠ cid →
      mapGet s'.content_applications k = mapGet s.content_applications k) := by
  unfold reject_content at h
  split at h
  · simp at h
  · split at h
    · simp at h
    · dsimp only at h
      split at h
      · simp at h
      · split at h <;>
        · injection h with hres hstate
          subst hstate
          refine ⟨⟨rfl, rfl, rfl, rfl, rfl, rfl, rfl, rfl, rfl, rfl⟩, ?_, ?_⟩
          · simp [mapGet_insert_self]
          · intro k hk; exact mapGet_insert_ne _ _ _ _ hk

theorem approve_asset_ok_frame (s : ReviewState) (o : Owner) (aid : Nat)
    (b : Bool) (s' : ReviewState)
    (h : approve_asset s o aid = (.ok b, s')) :
    frameSansAsset s s' ∧
    (mapGet s'.asset_applications aid).isSome = true ∧
    (∀ k, k ≠ aid →
      mapGet s'.asset_applications k = mapGet s.asset_applications k) := by
  unfold approve_asset at h
  split at h
  · simp at h
  · split at h
    · simp at h
    · dsimp only at h
      split at h
      · simp at h
      · split at h <;>
        · injection h with hres hstate
          subst hstate
          refine ⟨⟨rfl, rfl, rfl, rfl, rfl, rfl, rfl, rfl, rfl, rfl⟩, ?_, ?_⟩
          · simp [mapGet_insert_self]
          · intro k hk; exact mapGet_insert_ne _ _ _ _ hk

theorem reject_asset_ok_frame (s : ReviewState) (o : Owner) (aid : Nat)
    (b : Bool) (s' : ReviewState)
    (h : reject_asset s o aid = (.ok b, s')) :
    frameSansAsset s s' ∧
    (mapGet s'.asset_applications aid).isSome = true ∧
    (∀ k, k ≠ aid →
      mapGet s'.asset_applications k = mapGet s.asset_applications k) := by
  unfold reject_asset at h
  split at h
  · simp at h
  · split at h
    · simp at h
    · dsimp only at h
      split at h
      · simp at h
      · split at h <;>
        · injection h with hres hstate
          subst hstate
          refine ⟨⟨rfl, rfl, rfl, rfl, rfl, rfl, rfl, rfl, rfl, rfl⟩, ?_, ?_⟩
          · simp [mapGet_insert_self]
          · intro k hk; exact mapGet_insert_ne _ _ _ _ hk

/-- C9: a successful `vote_on_content` / `vote_on_asset` call (any of the
four content/asset vote functions returning `ok`, resolution reported or
not) keeps the target entry in its pending table and modifies nothing
outside that entry: the accredited map, `reviewer_number`,
`reviewer_applications`, the other pending table, all six threshold
registers and every other entry of the target's own table are unchanged. -/
theorem content_asset_vote_frame (s : ReviewState) (o : Owner) (cid : String)
    (aid : Nat) :
    (∀ ores s', approve_content s o cid = (.ok ores, s') →
      frameSansContent s s' ∧
      (mapGet s'.content_applications cid).isSome = true ∧
      (∀ k, k ≠ cid → mapGet s'.content_applications k =
        mapGet s.content_applications k)) ∧
    (∀ b s', reject_content s o cid = (.ok b, s') →
      frameSansContent s s' ∧
      (mapGet s'.content_applications cid).isSome = true ∧
      (∀ k, k ≠ cid → mapGet s'.content_applications k =
        mapGet s.content_applications k)) ∧
    (∀ b s', approve_asset s o aid = (.ok b, s') →
      frameSansAsset s s' ∧
      (mapGet s'.asset_applications aid).isSome = true ∧
      (∀ k, k ≠ aid → mapGet s'.asset_applications k =
        mapGet s.asset_applications k)) ∧
    (∀ b s', reject_asset s o aid = (.ok b, s') →
      frameSansAsset s s' ∧
      (mapGet s'.asset_applications aid).isSome = true ∧
      (∀ k, k ≠ aid → mapGet s'.asset_applications k =
        mapGet s.asset_applications k)) :=
  ⟨fun ores s' h => approve_content_ok_frame s o cid ores s' h,
    fun b s' h => reject_content_ok_frame s o cid b s' h,
    fun b s' h => approve_asset_ok_frame s o aid b s' h,
    fun b s' h => reject_asset_ok_frame s o aid b s' h⟩

/-- C9 witness: after the founder's approving content vote on `sC8`, the
"c" entry is still pending and the accredited map is unchanged. -/
theorem content_asset_vote_frame_witness :
    (mapGet (approve_content sC8 1 "c").2.content_applications "c").isSome
      = true ∧
    (approve_content sC8 1 "c").2.reviewers = sC8.reviewers :=
  ⟨((content_asset_vote_frame sC8 1 "c" 0).1 none
      (approve_content sC8 1 "c").2 (by decide)).2.1,
    ((content_asset_vote_frame sC8 1 "c" 0).1 none
      (approve_content sC8 1 "c").2 (by decide)).1.1⟩

/-- C7 (amended): with an accredited caster and no pending application at
the target key, reviewer votes fail with `InvalidReviewer` (the same variant
used for a non-accredited caster), content votes fail with
`InvalidContent`, and asset votes pass validation (a missing asset is
treated as valid) before failing with `InvalidReviewer`; no asset-specific
error exists. -/
theorem unknown_target_error_kinds (s : ReviewState) (o cand : Owner)
    (cid : String) (aid : Nat) (hrev : is_reviewer s o = true) :
    (mapGet s.reviewer_applications cand = none →
      (approve_reviewer s o cand).1 = .err .InvalidReviewer ∧
      (reject_reviewer s o cand).1 = .err .InvalidReviewer) ∧
    (mapGet s.content_applications cid = none →
      (approve_content s o cid).1 = .err .InvalidContent ∧
      (reject_content s o cid).1 = .err .InvalidContent) ∧
    (mapGet s.asset_applications aid = none →
      validate_asset_review s o aid = none ∧
      (approve_asset s o aid).1 = .err .InvalidReviewer ∧
      (reject_asset s o aid).1 = .err .InvalidReviewer) := by
  refine ⟨fun hg => ⟨?_, ?_⟩, fun hg => ⟨?_, ?_⟩, fun hg => ⟨?_, ?_, ?_⟩⟩
  · have hv : validate_reviewer_review s o cand = some .InvalidReviewer := by
      unfold validate_reviewer_review; simp [hrev, hg]
    simp [approve_reviewer, hv]
  · have hv : validate_reviewer_review s o cand = some .InvalidReviewer := by
      unfold validate_reviewer_review; simp [hrev, hg]
    simp [reject_reviewer, hv]
  · have hv : validate_content_review s o cid = some .InvalidContent := by
      unfold validate_content_review; simp [hrev, hg]
    simp [approve_content, hv]
  · have hv : validate_content_review s o cid = some .InvalidContent := by
      unfold validate_content_review; simp [hrev, hg]
    simp [reject_content, hv]
  · unfold validate_asset_review; simp [hrev, hg]
  · have hv : validate_asset_review s o aid = none := by
      unfold validate_asset_review; simp [hrev, hg]
    simp [approve_asset, hv, hg]
  · have hv : validate_asset_review s o aid = none := by
      unfold validate_asset_review; simp [hrev, hg]
    simp [reject_asset, hv, hg]

/-- C7 amended-claim witness: on `sC7` reviewer 1's unknown-target votes
produce the kind-wise errors of the amended claim. -/
theorem unknown_target_error_kinds_witness :
    (approve_reviewer sC7 1 9).1 = .err .InvalidReviewer ∧
    (approve_content sC7 1 "c").1 = .err .InvalidContent ∧
    (reject_asset sC7 1 5).1 = .err .InvalidReviewer :=
  ⟨((unknown_target_error_kinds sC7 1 9 "c" 5 (by decide)).1
      (by decide)).1,
    ((unknown_target_error_kinds sC7 1 9 "c" 5 (by decide)).2.1
      (by decide)).1,
    ((unknown_target_error_kinds sC7 1 9 "c" 5 (by decide)).2.2
      (by decide)).2.2⟩

theorem approve_reviewer_no_arith (s : ReviewState) (o cand : Owner) :
    isErrArith (approve_reviewer s o cand).1 = false := by
  unfold approve_reviewer
  split
  · next e hv =>
    unfold validate_reviewer_review at hv
    split at hv
    · injection hv with he; subst he; rfl
    · split at hv
      · split at hv
        · injection hv with he; subst he; rfl
        · simp at hv
      · injection hv with he; subst he; rfl
  · split
    · rfl
    · dsimp only
      split
      · rfl
      · split <;> rfl

theorem reject_reviewer_no_arith (s : ReviewState) (o cand : Owner) :
    isErrArith (reject_reviewer s o cand).1 = false := by
  unfold reject_reviewer
  split
  · next e hv =>
    unfold validate_reviewer_review at hv
    split at hv
    · injection hv with he; subst he; rfl
    · split at hv
      · split at hv
        · injection hv with he; subst he; rfl
        · simp at hv
      · injection hv with he; subst he; rfl
  · split
    · rfl
    · dsimp only
      split
      · rfl
      · split <;> rfl

theorem approve_content_no_arith (s : ReviewState) (o : Owner)
    (cid : String) : isErrArith (approve_content s o cid).1 = false := by
  unfold approve_content
  split
  · next e hv =>
    unfold validate_content_review at hv
    split at hv
    · injection hv with he; subst he; rfl
    · split at hv
      · split at hv
        · injection hv with he; subst he; rfl
        · simp at hv
      · injection hv with he; subst he; rfl
  · split
    · rfl
    · dsimp only
      split
      · rfl
      · split <;> rfl

theorem reject_content_no_arith (s : ReviewState) (o : Owner)
    (cid : String) : isErrArith (reject_content s o cid).1 = false := by
  unfold reject_content
  split
  · next e hv =>
    unfold validate_content_review at hv
    split at hv
    · injection hv with he; subst he; rfl
    · split at hv
      · split at hv
        · injection hv with he; subst he; rfl
        · simp at hv
      · injection hv with he; subst he; rfl
  · split
    · rfl
    · dsimp only
      split
      · rfl
      · split <;> rfl

theorem approve_asset_no_arith (s : ReviewState) (o : Owner) (aid : Nat) :
    isErrArith (approve_asset s o aid).1 = false := by
  unfold approve_asset
  split
  · next e hv =>
    unfold validate_asset_review at hv
    split at hv
    · injection hv with he; subst he; rfl
    · split at hv
      · split at hv
        · injection hv with he; subst he; rfl
        · simp at hv
      · simp at hv
  · split
    · rfl
    · dsimp only
      split
      · rfl
      · split <;> rfl

theorem reject_asset_no_arith (s : ReviewState) (o : Owner) (aid : Nat) :
    isErrArith (reject_asset s o aid).1 = false := by
  unfold reject_asset
  split
  · next e hv =>
    unfold validate_asset_review at hv
    split at hv
    · injection hv with he; subst he; rfl
    · split at hv
      · split at hv
        · injection hv with he; subst he; rfl
        · simp at hv
      · simp at hv
  · split
    · rfl
    · dsimp only
      split
      · rfl
      · split <;> rfl

/-- C8 (amended): no vote call ever returns the arithmetic-overflow error;
tally increments are wrapping `u16` additions, so a valid content approval
stores `(approved + 1) % 65536` — in particular an increment from 65535
succeeds and stores the wrapped value 0 instead of failing. -/
theorem vote_tally_wraps_no_overflow_error (s : ReviewState)
    (o cand : Owner) (cid : String) (aid : Nat) :
    isErrArith (approve_reviewer s o cand).1 = false ∧
    isErrArith (reject_reviewer s o cand).1 = false ∧
    isErrArith (approve_content s o cid).1 = false ∧
    isErrArith (reject_content s o cid).1 = false ∧
    isErrArith (approve_asset s o aid).1 = false ∧
    isErrArith (reject_asset s o aid).1 = false ∧
    (∀ c, is_reviewer s o = true →
      mapGet s.content_applications cid = some c →
      c.reviewers.contains o = false →
      mapGet (approve_content s o cid).2.content_applications cid =
        some { c with approved := (c.approved + 1) % 65536 }) := by
  refine ⟨approve_reviewer_no_arith s o cand, reject_reviewer_no_arith s o
    cand, approve_content_no_arith s o cid, reject_content_no_arith s o cid,
    approve_asset_no_arith s o aid, reject_asset_no_arith s o aid,
    fun c hrev hg hvoter => ?_⟩
  have hv : validate_content_review s o cid = none := by
    unfold validate_content_review
    simp [hrev, hg, hvoter]
    simpa using hvoter
  unfold approve_content
  rw [hv]
  dsimp only
  rw [hg]
  dsimp only
  rw [mapGet_insert_self]
  dsimp only
  split <;> exact mapGet_insert_self _ _ _

/-- C8 amended-claim witness: on `sC8`, whose "c" entry has tally 65535, the
founder's approving vote stores the wrapped tally 0. -/
theorem vote_tally_wraps_no_overflow_error_witness :
    mapGet (approve_content sC8 1 "c").2.content_applications "c" =
      some { cid := "c", reviewers := [], approved := (65535 + 1) % 65536,
             rejected := 0 } :=
  (vote_tally_wraps_no_overflow_error sC8 1 9 "c" 5).2.2.2.2.2.2
    { cid := "c", reviewers := [], approved := 65535, rejected := 0 }
    (by decide) (by decide) (by decide)

end ResPeer
